import Mathlib

/-
Verification of the SnapSecure tamper-evident audit-trail core:
the blockchain ledger service (BlockchainService, src/unnamed/part_004)
and the firewall / intrusion-detection service
(SecurityService, src/GhostLens/SnapSecure/src/services/securityService.ts).

The embedding is shallow: each TypeScript method becomes a pure Lean
function over an explicit state record; side effects (audit emissions,
security-log rows) become output lists threaded through the state;
JavaScript Map / Set become association lists with JS Map semantics
(set updates in place, insert appends at the end).
-/

set_option maxRecDepth 4096

/-! ## JSON values and JSON.stringify with a replacer array

`generateTransactionHash` in the source is
`CryptoJS.SHA256(JSON.stringify(data, Object.keys(data).sort())).toString(hex)`.
Per the ECMAScript specification, when the second argument of
`JSON.stringify` is an array it is a property list: at EVERY nesting
level only the properties named in the list are serialized, in the
order of the list.  The model below reproduces exactly that. -/

mutual
inductive JValue where
  | str (s : String)
  | num (n : Int)
  | jbool (b : Bool)
  | null
  | arr (elems : JList)
  | obj (fields : JFields)

inductive JList where
  | nil
  | cons (v : JValue) (rest : JList)

inductive JFields where
  | nil
  | cons (k : String) (v : JValue) (rest : JFields)
end

/-- Build a JSON array value from a plain list. -/
def ja : List JValue → JList
  | [] => .nil
  | v :: vs => .cons v (ja vs)

/-- Build a JSON object value from a plain association list
(JS object-literal field order). -/
def jf : List (String × JValue) → JFields
  | [] => .nil
  | (k, v) :: rest => .cons k v (jf rest)

mutual
def jsize : JValue → Nat
  | .str _ => 1
  | .num _ => 1
  | .jbool _ => 1
  | .null => 1
  | .arr l => 1 + jlistSize l
  | .obj fs => 1 + jfieldsSize fs

def jlistSize : JList → Nat
  | .nil => 0
  | .cons v rest => 1 + jsize v + jlistSize rest

def jfieldsSize : JFields → Nat
  | .nil => 0
  | .cons _ v rest => 1 + jsize v + jfieldsSize rest
end

/-- Property lookup on a JSON object (object keys are unique in JS). -/
def jlookup (k : String) : JFields → Option JValue
  | .nil => none
  | .cons k' v rest => if k' == k then some v else jlookup k rest

def jfKeys : JFields → List String
  | .nil => []
  | .cons k _ rest => k :: jfKeys rest

/-- JSON string quoting. The payload strings in this development contain
no control characters, so escaping quote and backslash suffices. -/
def quoteJson (s : String) : String :=
  "\"" ++ String.join (s.toList.map (fun c =>
    if c = '"' then "\\\"" else if c = '\\' then "\\\\" else String.singleton c)) ++ "\""

/-- Lexicographic comparison on code points; agrees with the UTF-16
code-unit comparison used by JavaScript Array.prototype.sort for the
plain-ASCII keys occurring in this code base. -/
def charListLe : List Char → List Char → Bool
  | [], _ => true
  | _ :: _, [] => false
  | a :: as, b :: bs => if a < b then true else if b < a then false else charListLe as bs

def strLeb (a b : String) : Bool := charListLe a.toList b.toList

def insertKey (k : String) : List String → List String
  | [] => [k]
  | x :: xs => if strLeb k x then k :: x :: xs else x :: insertKey k xs

/-- Model of Array.prototype.sort on the (duplicate-free) key list
produced by Object.keys. -/
def sortKeys : List String → List String
  | [] => []
  | x :: xs => insertKey x (sortKeys xs)

/-- Model of Object.keys: own enumerable property names in insertion
order.  The source only ever applies it to plain objects. -/
def jsonKeys : JValue → List String
  | .obj fields => jfKeys fields
  | _ => []

mutual
/-- JSON.stringify with a replacer (property-list) array.  The first
argument is evaluation fuel; `jsonStringifyWith` supplies `jsize v`,
which strictly dominates the nesting depth, so the fuel-exhausted
branch is unreachable. -/
def stringifyF : Nat → List String → JValue → String
  | 0, _, _ => ""
  | fuel + 1, props, v =>
    match v with
    | .str s => quoteJson s
    | .num n => toString n
    | .jbool b => if b then "true" else "false"
    | .null => "null"
    | .arr elems =>
        "[" ++ String.intercalate "," (stringifyElems fuel props elems) ++ "]"
    | .obj fields =>
        "\x7b" ++ String.intercalate ","
          (props.filterMap (fun k =>
            (jlookup k fields).map (fun w =>
              quoteJson k ++ ":" ++ stringifyF fuel props w))) ++ "\x7d"

def stringifyElems : Nat → List String → JList → List String
  | 0, _, _ => []
  | _ + 1, _, .nil => []
  | fuel + 1, props, .cons v rest =>
      stringifyF fuel props v :: stringifyElems fuel props rest
end

def jsonStringifyWith (props : List String) (v : JValue) : String :=
  stringifyF (jsize v) props v

/-- Modelled from the spec: CryptoJS.SHA256 is an external collaborator
(spec section 4.5: a deterministic cryptographic digest).  It is modelled
as the identity embedding of its input string, which preserves exactly the
equalities and inequalities an ideal collision-free digest provides. -/
def sha256Hex (s : String) : String := s

/-- BlockchainService.generateTransactionHash:
`SHA256(JSON.stringify(data, Object.keys(data).sort()))`. -/
def generateTransactionHash (data : JValue) : String :=
  sha256Hex (jsonStringifyWith (sortKeys (jsonKeys data)) data)

/-! ## Ledger data model (persistent blockchain transactions) -/

structure LedgerEntry where
  txHash : String
  txType : String
  relatedEntityId : Option String
  data : JValue
  blockNumber : Nat
  gasUsed : Nat
  isConfirmed : Bool

structure SecurityLog where
  userId : Nat
  eventType : String
  eventDescription : String
  riskLevel : String
  isAnomaly : Bool

/-- BlockchainService state: the single-writer block counter plus the
persistent storage tables (blockchain transactions and security logs),
modelled as lists in insertion order. -/
structure BCState where
  currentBlockNumber : Nat
  store : List LedgerEntry
  securityLogs : List SecurityLog

def bcInit : BCState := { currentBlockNumber := 0, store := [], securityLogs := [] }

/-- Model of `parseInt(x || '0')` on the decimal strings produced by
`userId?.toString()`. -/
def parseIntD (s : Option String) : Nat := ((s.getD "0").toNat?).getD 0

/-- The transaction payload object built by createSecurityTransaction,
with its JS object-literal field order.  An absent userId is modelled
by omitting the field, which serializes identically to `undefined`. -/
def mkTransactionData (eventType : String) (data : JValue) (userId : Option Nat)
    (timestamp blockNumber : Nat) : JValue :=
  JValue.obj (jf ([("eventType", JValue.str eventType), ("data", data)]
    ++ (match userId with
        | some u => [("userId", JValue.num (u : Int))]
        | none => [])
    ++ [("timestamp", JValue.num (timestamp : Int)),
        ("blockNumber", JValue.num (blockNumber : Int))]))

/-- BlockchainService.createSecurityTransaction.  `storePersist` models
the external storage collaborator (spec section 6): it is the entry the
store actually persists; the honest store is `id`.  `Date.now()` is
passed in as `timestamp`.  The simulated random gas has no functional
role and is modelled as its lower bound. -/
def createSecurityTransaction (storePersist : LedgerEntry → LedgerEntry)
    (eventType : String) (data : JValue) (userId : Option Nat) (timestamp : Nat)
    (st : BCState) : Except String (String × BCState) :=
  let transactionData := mkTransactionData eventType data userId timestamp (st.currentBlockNumber + 1)
  let txHash := generateTransactionHash transactionData
  let entry : LedgerEntry :=
    { txHash := txHash
      txType := eventType
      relatedEntityId := userId.map toString
      data := transactionData
      blockNumber := st.currentBlockNumber + 1
      gasUsed := 21000
      isConfirmed := true }
  let st' : BCState :=
    { st with currentBlockNumber := st.currentBlockNumber + 1
              store := st.store ++ [storePersist entry] }
  let verificationHash := generateTransactionHash transactionData
  if verificationHash ≠ txHash then
    Except.error "Transaction hash verification failed - potential tampering detected"
  else
    Except.ok (txHash, st')

/-- BlockchainService.verifyTransaction: load by hash, recompute the
digest from the stored data, and on mismatch write a critical security
log row. -/
def verifyTransaction (txHash : String) (st : BCState) : Bool × BCState :=
  match st.store.find? (fun e => e.txHash == txHash) with
  | none => (false, st)
  | some dbData =>
    if !dbData.isConfirmed then (false, st)
    else
      let regeneratedHash := generateTransactionHash dbData.data
      if regeneratedHash == txHash then (true, st)
      else
        (false, { st with securityLogs := st.securityLogs ++
          [{ userId := parseIntD dbData.relatedEntityId
             eventType := "blockchain_tampering_detected"
             eventDescription := "Transaction hash verification failed for " ++ txHash
             riskLevel := "critical"
             isAnomaly := true }] })

/-- BlockchainService.validateChainIntegrity: full scan, collecting the
hashes of entries whose recomputed digest mismatches, logging a critical
row for each. -/
def validateChainIntegrity (st : BCState) : (Bool × List String) × BCState :=
  let step := fun (acc : List String × List SecurityLog) (tx : LedgerEntry) =>
    if generateTransactionHash tx.data ≠ tx.txHash then
      (acc.1 ++ [tx.txHash],
       acc.2 ++ [{ userId := parseIntD tx.relatedEntityId
                   eventType := "blockchain_integrity_violation"
                   eventDescription := "Chain integrity violation: " ++ tx.txHash
                   riskLevel := "critical"
                   isAnomaly := true }])
    else acc
  let res := st.store.foldl step ([], [])
  ((res.1.length = 0, res.1), { st with securityLogs := st.securityLogs ++ res.2 })

/-- Field projection on a JSON object, used to exhibit payload mutations. -/
def jfield (v : JValue) (k : String) : Option JValue :=
  match v with
  | .obj fields => jlookup k fields
  | _ => none

/-- Run a list of append calls (eventType, data, userId, timestamp)
against the honest store.  The error branch of the append is provably
unreachable and is mapped to the unchanged state. -/
def runAppends (inputs : List (String × JValue × Option Nat × Nat)) (st : BCState) : BCState :=
  match inputs with
  | [] => st
  | (e, d, u, t) :: rest =>
    match createSecurityTransaction id e d u t st with
    | .ok (_, st') => runAppends rest st'
    | .error _ => st

/-! ## SecurityService (firewall, rate limiter, intrusion detection)

State from securityService.ts: blockedIPs (a JS Set), and three JS Maps.
JS Map semantics: `set` updates an existing key in place, otherwise
appends; `delete` removes; iteration is in insertion order.  Calls to
`blockchainService.createAuditTrail` are modelled by recording the call
arguments (userId, eventType, description, riskLevel) in `auditLog`. -/

structure RateLimitEntry where
  count : Nat
  resetTime : Nat

structure AuditRecord where
  userId : Nat
  eventType : String
  description : String
  riskLevel : String

structure SecState where
  blockedIPs : List String
  suspiciousActivities : List (String × Nat)
  rateLimits : List (String × RateLimitEntry)
  failedAttempts : List (String × Nat)
  auditLog : List AuditRecord

def MAX_FAILED_ATTEMPTS : Nat := 5
def RATE_LIMIT_WINDOW : Nat := 60000
def MAX_REQUESTS_PER_MINUTE : Nat := 100
def SUSPICIOUS_THRESHOLD : Nat := 10

/-- State after the constructor ran initializeFirewall: the two known
malicious IPs are pre-blocked, every map is empty. -/
def initialSecState : SecState :=
  { blockedIPs := ["0.0.0.0", "192.168.1.1"]
    suspiciousActivities := []
    rateLimits := []
    failedAttempts := []
    auditLog := [] }

def mapGet {α : Type} (m : List (String × α)) (k : String) : Option α :=
  List.lookup k m

/-- JS Map.set: replace in place if the key exists, else append. -/
def mapSet {α : Type} : List (String × α) → String → α → List (String × α)
  | [], k, v => [(k, v)]
  | (k', v') :: t, k, v =>
      if k' == k then (k, v) :: t else (k', v') :: mapSet t k v

/-- JS Map.delete. -/
def mapDelete {α : Type} (m : List (String × α)) (k : String) : List (String × α) :=
  m.filter (fun p => p.1 != k)

/-- JS Set.add. -/
def setAdd (s : List String) (ip : String) : List String :=
  if s.contains ip then s else s ++ [ip]

/-- Audit emission: a call to blockchainService.createAuditTrail is
modelled by appending its arguments to the audit log. -/
def emitAudit (s : SecState) (userId : Nat) (eventType description riskLevel : String) : SecState :=
  { s with auditLog := s.auditLog ++ [⟨userId, eventType, description, riskLevel⟩] }

/-- SecurityService.isIPBlocked. -/
def isIPBlocked (ipAddress : String) (s : SecState) : Bool :=
  s.blockedIPs.contains ipAddress

/-- SecurityService.blockIP: add to the blocklist and emit a high-risk
audit record (`userId || 0` maps an absent userId to 0). -/
def blockIP (ipAddress reason : String) (userId : Option Nat) (s : SecState) : SecState :=
  let s1 := { s with blockedIPs := setAdd s.blockedIPs ipAddress }
  emitAudit s1 (userId.getD 0) "ip_blocked" ("IP " ++ ipAddress ++ " blocked: " ++ reason) "high"

/-- The string|number userId accepted by recordSuspiciousActivity. -/
inductive JsId where
  | str (s : String)
  | num (n : Nat)

def jsIdKeyStr : JsId → String
  | .str s => s
  | .num n => toString n

/-- SecurityService.recordSuspiciousActivity: bump the per
(subject, activityType) counter, emit an audit record whose severity
scales with the count, and auto-block the IP past the threshold. -/
def recordSuspiciousActivity (userId : JsId) (activityType description ipAddress : String)
    (s : SecState) : SecState :=
  let key := jsIdKeyStr userId ++ ":" ++ activityType
  let newCount := (mapGet s.suspiciousActivities key).getD 0 + 1
  let s1 := { s with suspiciousActivities := mapSet s.suspiciousActivities key newCount }
  let riskLevel :=
    if newCount > SUSPICIOUS_THRESHOLD then "critical"
    else if newCount > 5 then "high" else "medium"
  let auditUserId := match userId with | .str _ => 0 | .num n => n
  let s2 := emitAudit s1 auditUserId "suspicious_activity"
    (activityType ++ ": " ++ description ++ " (occurrence: " ++ toString newCount ++ ")") riskLevel
  if newCount > SUSPICIOUS_THRESHOLD then
    blockIP ipAddress ("Suspicious activity threshold exceeded: " ++ activityType) none s2
  else s2

/-- SecurityService.checkRateLimit; `now` is the Date.now() reading. -/
def checkRateLimit (now : Nat) (identifier ipAddress : String) (s : SecState) : Bool × SecState :=
  let key := identifier ++ ":" ++ ipAddress
  match mapGet s.rateLimits key with
  | none =>
      (true, { s with rateLimits := mapSet s.rateLimits key ⟨1, now + RATE_LIMIT_WINDOW⟩ })
  | some limit =>
      if now > limit.resetTime then
        (true, { s with rateLimits := mapSet s.rateLimits key ⟨1, now + RATE_LIMIT_WINDOW⟩ })
      else if limit.count ≥ MAX_REQUESTS_PER_MINUTE then
        (false, recordSuspiciousActivity (.str identifier) "rate_limit_exceeded"
          ("Rate limit exceeded: " ++ toString limit.count ++ " requests") ipAddress s)
      else
        (true, { s with rateLimits := mapSet s.rateLimits key ⟨limit.count + 1, limit.resetTime⟩ })

/-- SecurityService.recordFailedAttempt. -/
def recordFailedAttempt (identifier ipAddress : String) (s : SecState) : Bool × SecState :=
  let key := identifier ++ ":" ++ ipAddress
  let attempts := (mapGet s.failedAttempts key).getD 0
  let newAttempts := attempts + 1
  let s1 := { s with failedAttempts := mapSet s.failedAttempts key newAttempts }
  if newAttempts ≥ MAX_FAILED_ATTEMPTS then
    (true, blockIP ipAddress
      (toString MAX_FAILED_ATTEMPTS ++ " failed login attempts for " ++ identifier) none s1)
  else
    (false, emitAudit s1 0 "failed_login_attempt"
      ("Failed login attempt " ++ toString newAttempts ++ "/" ++ toString MAX_FAILED_ATTEMPTS
        ++ " for " ++ identifier)
      (if newAttempts > 2 then "medium" else "low"))

/-- SecurityService.clearFailedAttempts. -/
def clearFailedAttempts (identifier ipAddress : String) (s : SecState) : SecState :=
  { s with failedAttempts := mapDelete s.failedAttempts (identifier ++ ":" ++ ipAddress) }

/-- JS String.prototype.includes on exploded strings. -/
def containsSeq (pat : List Char) : List Char → Bool
  | [] => pat.isEmpty
  | c :: rest => pat.isPrefixOf (c :: rest) || containsSeq pat rest

def strIncludes (s sub : String) : Bool := containsSeq sub.toList s.toList

structure IntrusionMetadata where
  unusual_pattern : Bool
  suspicious_size : Bool

structure IntrusionResult where
  threat : Bool
  level : String
  action : String

/-- SecurityService.detectIntrusion: three independent signals, threat
level from the number of matched signals, action from the level, and an
audit record whenever any signal matched. -/
def detectIntrusion (userId : Nat) (activity : String) (metadata : IntrusionMetadata)
    (s : SecState) : IntrusionResult × SecState :=
  let rapidActivityKey := toString userId ++ ":rapid_activity"
  let rapidCount := (mapGet s.suspiciousActivities rapidActivityKey).getD 0
  let threats : List String :=
    (if rapidCount > 20 then ["rapid_activity"] else [])
    ++ (if strIncludes activity "permission" && metadata.unusual_pattern then
          ["unusual_permission_pattern"] else [])
    ++ (if strIncludes activity "file_access" && metadata.suspicious_size then
          ["file_access_anomaly"] else [])
  if threats.length = 0 then
    (⟨false, "none", "continue"⟩, s)
  else
    let level :=
      if threats.length > 2 then "critical"
      else if threats.length > 1 then "high" else "medium"
    let action :=
      if level == "critical" then "block_user"
      else if level == "high" then "require_verification" else "monitor"
    (⟨true, level, action⟩,
      emitAudit s userId "intrusion_detected"
        ("Intrusion detected: " ++ String.intercalate ", " threats) level)

/-- SecurityService.cleanupSecurityData: drop rate-limit windows whose
resetTime has passed, and drop failedAttempts entries whose stored VALUE
is below `now - 1h`.  The comparison is kept in Int exactly as JS
computes it; note the map stores attempt counters, not timestamps. -/
def cleanupSecurityData (now : Nat) (s : SecState) : SecState :=
  let oneHourAgo : Int := (now : Int) - 60 * 60 * 1000
  { s with
    rateLimits := s.rateLimits.filter (fun p => !(decide ((p.2.resetTime : Nat) < now)))
    failedAttempts := s.failedAttempts.filter (fun p => !(decide ((p.2 : Int) < oneHourAgo))) }

/-- SecurityService.encryptData / decryptData consult
`key || process.env.ENCRYPTION_KEY` and reject a falsy result; the
private-key helpers in BlockchainService consult MASTER_ENCRYPTION_KEY.
JS truthiness on an optional string: absent or empty is falsy. -/
def jsFalsy : Option String → Bool
  | none => true
  | some v => v.isEmpty

def jsOrString (a b : Option String) : Option String :=
  if jsFalsy a then b else a

/-- Modelled from the spec: CryptoJS.AES (external collaborator, spec
section 4.5), a symmetric cipher.  Only its type matters for the claims
settled here; it is modelled as a tagged pairing of key and plaintext. -/
def aesEncrypt (plaintext key : String) : String :=
  "enc:" ++ key ++ ":" ++ plaintext

/-- Modelled from the spec: the matching decryption; fails closed to the
empty string on a mismatched key, per spec section 4.5. -/
def aesDecrypt (ciphertext key : String) : String :=
  if ("enc:" ++ key ++ ":").isPrefixOf ciphertext then
    ciphertext.drop ("enc:" ++ key ++ ":").length
  else ""

/-- SecurityService.encryptData; `envEncryptionKey` is
process.env.ENCRYPTION_KEY. -/
def encryptData (data : String) (keyArg : Option String) (envEncryptionKey : Option String) :
    Except String String :=
  let encryptionKey := jsOrString keyArg envEncryptionKey
  if jsFalsy encryptionKey then
    Except.error "ENCRYPTION_KEY environment variable is required for secure operations"
  else
    Except.ok (aesEncrypt data (encryptionKey.getD ""))

/-- BlockchainService.encryptPrivateKey; `masterKey` is
process.env.MASTER_ENCRYPTION_KEY. -/
def encryptPrivateKey (privateKey : String) (masterKey : Option String) :
    Except String String :=
  if jsFalsy masterKey then
    Except.error "MASTER_ENCRYPTION_KEY environment variable is required for secure operations"
  else
    Except.ok (aesEncrypt privateKey (masterKey.getD ""))

/-- BlockchainService.decryptPrivateKey. -/
def decryptPrivateKey (encryptedKey : String) (masterKey : Option String) :
    Except String String :=
  if jsFalsy masterKey then
    Except.error "MASTER_ENCRYPTION_KEY environment variable is required for secure operations"
  else
    Except.ok (aesDecrypt encryptedKey (masterKey.getD ""))

/-- Fold a list of checkRateLimit calls (one Date.now() reading each),
collecting the returned booleans. -/
def runRate (identifier ipAddress : String) : List Nat → SecState → List Bool × SecState
  | [], s => ([], s)
  | t :: ts, s =>
      let r := checkRateLimit t identifier ipAddress s
      let rr := runRate identifier ipAddress ts r.2
      (r.1 :: rr.1, rr.2)

/-- Fold a number of recordFailedAttempt calls for one (identifier, ip),
collecting the returned booleans. -/
def runFailed (identifier ipAddress : String) : Nat → SecState → List Bool × SecState
  | 0, s => ([], s)
  | n + 1, s =>
      let r := recordFailedAttempt identifier ipAddress s
      let rr := runFailed identifier ipAddress n r.2
      (r.1 :: rr.1, rr.2)

/-! ## Concrete scenarios used to settle the tamper-detection claims -/

/-- One audited event appended through the honest store: a
security_audit transaction whose domain payload has a single nested
field `description = "x"`. -/
def c1Run : String × BCState :=
  match createSecurityTransaction id "security_audit"
      (JValue.obj (jf [("description", JValue.str "x")])) (some 7) 1000 bcInit with
  | .ok r => r
  | .error _ => ("", bcInit)

/-- The stored transaction payload with its nested `data.description`
field mutated from "x" to "y"; every other field is exactly what
createSecurityTransaction stored. -/
def c1TamperedData : JValue :=
  JValue.obj (jf
    [("eventType", JValue.str "security_audit"),
     ("data", JValue.obj (jf [("description", JValue.str "y")])),
     ("userId", JValue.num 7),
     ("timestamp", JValue.num 1000),
     ("blockNumber", JValue.num 1)])

/-- The ledger state after the stored payload is mutated directly in
storage (bypassing append). -/
def c1Tampered : BCState :=
  { c1Run.2 with store := c1Run.2.store.map (fun e => { e with data := c1TamperedData }) }

/-- A faulty store: it persists the entry with a corrupted payload. -/
def corruptingStore : LedgerEntry → LedgerEntry :=
  fun e => { e with data := JValue.obj (jf [("tampered", JValue.num 0)]) }

/-- createSecurityTransaction run against the faulty store. -/
def c4Run : Except String (String × BCState) :=
  createSecurityTransaction corruptingStore "security_audit"
    (JValue.obj (jf [("note", JValue.str "hello")])) (some 7) 1000 bcInit

/-- The state the faulty-store append leaves behind. -/
def c4State : BCState :=
  match c4Run with
  | .ok r => r.2
  | .error _ => bcInit

/-- The txHash the faulty-store append returned to its caller. -/
def c4Hash : String :=
  match c4Run with
  | .ok r => r.1
  | .error _ => ""

/-! ## Helper lemmas about the JS Map / Set model -/

theorem mapGet_mapSet_self {α : Type} (m : List (String × α)) (k : String) (v : α) :
    mapGet (mapSet m k v) k = some v := by
  induction m with
  | nil => simp [mapGet, mapSet]
  | cons p t ih =>
    obtain ⟨k', v'⟩ := p
    by_cases h : k' = k
    · simp [mapGet, mapSet, h]
    · have hb : (k == k') = false := beq_eq_false_iff_ne.mpr (Ne.symm h)
      have hb' : (k' == k) = false := beq_eq_false_iff_ne.mpr h
      simpa [mapGet, mapSet, hb, hb', List.lookup_cons] using ih

theorem mapSet_mapSet {α : Type} (m : List (String × α)) (k : String) (v w : α) :
    mapSet (mapSet m k v) k w = mapSet m k w := by
  induction m with
  | nil => simp [mapSet]
  | cons p t ih =>
    obtain ⟨k', v'⟩ := p
    by_cases h : k' = k
    · simp [mapSet, h]
    · have hb' : (k' == k) = false := beq_eq_false_iff_ne.mpr h
      simp [mapSet, hb', ih]

theorem mapSet_get_same {α : Type} (m : List (String × α)) (k : String) (v : α)
    (h : mapGet m k = some v) : mapSet m k v = m := by
  induction m with
  | nil => simp [mapGet] at h
  | cons p t ih =>
    obtain ⟨k', v'⟩ := p
    by_cases hk : k' = k
    · subst hk
      simp [mapGet] at h
      simp [mapSet, h]
    · have hb : (k == k') = false := beq_eq_false_iff_ne.mpr (Ne.symm hk)
      have hb' : (k' == k) = false := beq_eq_false_iff_ne.mpr hk
      rw [mapGet, List.lookup_cons, hb] at h
      simp [mapSet, hb', ih h]

theorem mapGet_mapDelete_self {α : Type} (m : List (String × α)) (k : String) :
    mapGet (mapDelete m k) k = none := by
  induction m with
  | nil => rfl
  | cons p t ih =>
    obtain ⟨k', v'⟩ := p
    by_cases h : k' = k
    · simpa [mapDelete, h] using ih
    · have hb : (k == k') = false := beq_eq_false_iff_ne.mpr (Ne.symm h)
      simpa [mapDelete, mapGet, h, hb, List.lookup_cons] using ih

theorem contains_setAdd_self (s : List String) (ip : String) :
    (setAdd s ip).contains ip = true := by
  by_cases h : ip ∈ s
  · simp [setAdd, h]
  · simp [setAdd, h]

/-! ## Ledger append: closed-form step lemma -/

theorem createSecurityTransaction_ok (storePersist : LedgerEntry → LedgerEntry)
    (eventType : String) (data : JValue) (userId : Option Nat) (timestamp : Nat) (st : BCState) :
    createSecurityTransaction storePersist eventType data userId timestamp st =
      Except.ok
        (generateTransactionHash (mkTransactionData eventType data userId timestamp (st.currentBlockNumber + 1)),
         { st with
             currentBlockNumber := st.currentBlockNumber + 1
             store := st.store ++ [storePersist
               { txHash := generateTransactionHash
                   (mkTransactionData eventType data userId timestamp (st.currentBlockNumber + 1))
                 txType := eventType
                 relatedEntityId := userId.map toString
                 data := mkTransactionData eventType data userId timestamp (st.currentBlockNumber + 1)
                 blockNumber := st.currentBlockNumber + 1
                 gasUsed := 21000
                 isConfirmed := true }] }) := by
  simp [createSecurityTransaction]

/-- C1: refuted on the code as written.  One entry is appended through
the honest store; its stored payload is then mutated directly in
storage at the nested field `data.description` ("x" becomes "y",
exhibited by the two jfield projections).  The claim requires
verifyTransaction to return false, a critical SecurityLogEntry to be
written, and validateChainIntegrity to list the hash as corrupted; the
code instead reports the tampered entry as valid on all three counts,
because JSON.stringify with the sorted top-level key list as replacer
drops the nested `description` field from the hashed serialization. -/
theorem C1_nested_mutation_undetected :
    (verifyTransaction c1Run.1 c1Run.2).1 = true
    ∧ (validateChainIntegrity c1Run.2).1 = (true, [])
    ∧ c1Run.2.store.map (fun e => (jfield e.data "data").bind (fun w => jfield w "description"))
        = [some (JValue.str "x")]
    ∧ c1Tampered.store.map (fun e => (jfield e.data "data").bind (fun w => jfield w "description"))
        = [some (JValue.str "y")]
    ∧ (verifyTransaction c1Run.1 c1Tampered).1 = true
    ∧ (verifyTransaction c1Run.1 c1Tampered).2.securityLogs = []
    ∧ (validateChainIntegrity c1Tampered).1 = (true, []) :=
  ⟨rfl, rfl, rfl, rfl, rfl, rfl, rfl⟩

/-- C2: refuted on the code as written.  The two payloads differ at the
nested field `a.b` (1 versus 2, exhibited by the jfield projections),
yet generateTransactionHash assigns them the same digest: the replacer
array `Object.keys(data).sort()` contains only the top-level key "a",
so at the nested level the field "b" is filtered out and both payloads
serialize to the same string — nested fields are lost, contradicting
the claimed recursive, lossless canonicalization. -/
theorem C2_nested_fields_dropped :
    generateTransactionHash (JValue.obj (jf [("a", JValue.obj (jf [("b", JValue.num 1)]))]))
      = generateTransactionHash (JValue.obj (jf [("a", JValue.obj (jf [("b", JValue.num 2)]))]))
    ∧ (jfield (JValue.obj (jf [("a", JValue.obj (jf [("b", JValue.num 1)]))])) "a").bind
        (fun w => jfield w "b") = some (JValue.num 1)
    ∧ (jfield (JValue.obj (jf [("a", JValue.obj (jf [("b", JValue.num 2)]))])) "a").bind
        (fun w => jfield w "b") = some (JValue.num 2) :=
  ⟨rfl, rfl, rfl⟩

/-- C3: confirmed.  Appending N transactions from a state whose block
counter is k assigns the persisted entries exactly the block numbers
k+1, ..., k+N in order (no duplicates, no gaps), and leaves the counter
at k+N; from the initial state (k = 0) numbering starts at 1. -/
theorem C3_monotonic_block_numbers (inputs : List (String × JValue × Option Nat × Nat))
    (st : BCState) :
    (runAppends inputs st).currentBlockNumber = st.currentBlockNumber + inputs.length
    ∧ (runAppends inputs st).store.map LedgerEntry.blockNumber
        = st.store.map LedgerEntry.blockNumber
          ++ List.range' (st.currentBlockNumber + 1) inputs.length := by
  induction inputs generalizing st with
  | nil => simp [runAppends]
  | cons i rest ih =>
    obtain ⟨e, d, u, t⟩ := i
    rw [runAppends, createSecurityTransaction_ok]
    obtain ⟨ih1, ih2⟩ := ih ({ st with
        currentBlockNumber := st.currentBlockNumber + 1
        store := st.store ++ [id
          { txHash := generateTransactionHash
              (mkTransactionData e d u t (st.currentBlockNumber + 1))
            txType := e
            relatedEntityId := u.map toString
            data := mkTransactionData e d u t (st.currentBlockNumber + 1)
            blockNumber := st.currentBlockNumber + 1
            gasUsed := 21000
            isConfirmed := true }] } : BCState)
    constructor
    · rw [ih1]
      simp
      omega
    · rw [ih2]
      simp [List.map_append, List.range'_succ]

/-- C4 (amended): the post-persistence double-check recomputes the hash
from the same in-memory transaction data that produced txHash, not from
the persisted row, so the two hashes always agree and
createSecurityTransaction never fails with the integrity error — for
every store behavior, every input and every state it returns a txHash. -/
theorem C4_append_never_integrity_error (storePersist : LedgerEntry → LedgerEntry)
    (eventType : String) (data : JValue) (userId : Option Nat) (timestamp : Nat)
    (st : BCState) :
    (createSecurityTransaction storePersist eventType data userId timestamp st).isOk = true := by
  rw [createSecurityTransaction_ok]
  rfl

/-- C4 counterexample: a faulty store persists the entry with a
corrupted payload, so recomputing the digest from what was actually
persisted does not match the returned txHash (validateChainIntegrity
flags exactly that entry) — yet the append succeeds and hands the
caller a txHash instead of failing with an integrity error, refuting
the claimed defensive double-check against a faulty store. -/
theorem C4_faulty_store_not_detected :
    c4Run.isOk = true
    ∧ (validateChainIntegrity c4State).1 = (false, [c4Hash]) :=
  ⟨rfl, rfl⟩

/-! ## Firewall helper lemmas -/

theorem mem_setAdd_self (s : List String) (ip : String) : ip ∈ setAdd s ip := by
  by_cases h : ip ∈ s
  · simp [setAdd, h]
  · simp [setAdd, h]

/-- Closed form of a run of checkRateLimit calls that all fall inside
the current window and never reach the count limit: every call returns
true and only the window counter advances. -/
theorem runRate_in_window (identifier ipAddress : String) (ts : List Nat) (s : SecState)
    (c r : Nat)
    (hget : mapGet s.rateLimits (identifier ++ ":" ++ ipAddress) = some (RateLimitEntry.mk c r))
    (hts : ∀ t ∈ ts, t ≤ r) (hcnt : c + ts.length ≤ MAX_REQUESTS_PER_MINUTE) :
    runRate identifier ipAddress ts s =
      (List.replicate ts.length true,
       { s with rateLimits := (mapSet s.rateLimits (identifier ++ ":" ++ ipAddress)
           (RateLimitEntry.mk (c + ts.length) r)) }) := by
  induction ts generalizing s c with
  | nil =>
    simp [runRate, mapSet_get_same s.rateLimits _ _ hget]
  | cons t ts ih =>
    have hle : ¬ (t > r) := by
      have := hts t (by simp)
      omega
    have hlt : ¬ (c ≥ MAX_REQUESTS_PER_MINUTE) := by
      simp at hcnt ⊢
      omega
    have harith : c + 1 + ts.length = c + (ts.length + 1) := by omega
    have hts2 : ∀ u ∈ ts, u ≤ r := fun u hu => hts u (by simp [hu])
    have hcnt2 : (c + 1) + ts.length ≤ MAX_REQUESTS_PER_MINUTE := by
      simp at hcnt ⊢
      omega
    have hget2 : mapGet (mapSet s.rateLimits (identifier ++ ":" ++ ipAddress)
          (RateLimitEntry.mk (c + 1) r)) (identifier ++ ":" ++ ipAddress)
        = some (RateLimitEntry.mk (c + 1) r) := mapGet_mapSet_self _ _ _
    have hnext := ih ({ s with rateLimits := (mapSet s.rateLimits
        (identifier ++ ":" ++ ipAddress) (RateLimitEntry.mk (c + 1) r)) } : SecState)
        (c + 1) hget2 hts2 hcnt2
    rw [runRate]
    simp only [checkRateLimit, hget, hle, hlt, if_false]
    simp only [hnext]
    simp [mapSet_mapSet, harith, List.replicate_succ]

/-- C5: confirmed.  For any (identifier, ip) with no prior failed
attempts, five consecutive recordFailedAttempt calls return
[false, false, false, false, true]; the fifth blocks the IP via blockIP
(isIPBlocked becomes true, one high-risk ip_blocked audit record is
emitted), the four below-threshold calls each emit a
failed_login_attempt record at low severity for attempts 1 and 2 and
medium severity above that, and clearFailedAttempts before the fifth
attempt resets the counter (the key is removed, so the count reads 0). -/
theorem C5_failed_attempt_lockout (s : SecState) (identifier ip : String)
    (hfa : mapGet s.failedAttempts (identifier ++ ":" ++ ip) = none) :
    (runFailed identifier ip 5 s).1 = [false, false, false, false, true]
    ∧ isIPBlocked ip (runFailed identifier ip 5 s).2 = true
    ∧ (runFailed identifier ip 5 s).2.auditLog.map (fun a => (a.eventType, a.riskLevel))
        = s.auditLog.map (fun a => (a.eventType, a.riskLevel))
          ++ [("failed_login_attempt", "low"), ("failed_login_attempt", "low"),
              ("failed_login_attempt", "medium"), ("failed_login_attempt", "medium"),
              ("ip_blocked", "high")]
    ∧ mapGet (runFailed identifier ip 4 s).2.failedAttempts (identifier ++ ":" ++ ip) = some 4
    ∧ mapGet (clearFailedAttempts identifier ip (runFailed identifier ip 4 s).2).failedAttempts
        (identifier ++ ":" ++ ip) = none := by
  refine ⟨?_, ?_, ?_, ?_, ?_⟩ <;>
    simp [runFailed, recordFailedAttempt, clearFailedAttempts, blockIP, emitAudit,
      isIPBlocked, MAX_FAILED_ATTEMPTS, hfa, mapGet_mapSet_self, mapSet_mapSet,
      mapGet_mapDelete_self, mem_setAdd_self]

/-- Witness for C5: the spec scenario recordFailedAttempt('bob','9.9.9.9')
five times from the freshly initialized service. -/
theorem C5_lockout_witness :
    mapGet initialSecState.failedAttempts ("bob" ++ ":" ++ "9.9.9.9") = none
    ∧ (runFailed "bob" "9.9.9.9" 5 initialSecState).1 = [false, false, false, false, true]
    ∧ isIPBlocked "9.9.9.9" (runFailed "bob" "9.9.9.9" 5 initialSecState).2 = true := by
  have h := C5_failed_attempt_lockout initialSecState "bob" "9.9.9.9" rfl
  exact ⟨rfl, h.1, h.2.1⟩

/-- C6: confirmed (with the code's limit L = 100 per 60s window).  For
a fresh (identifier, ip) key, 100 calls within one window all return
true; the 101st call in the same window returns false and records a
suspicious-activity event (one suspicious_activity audit record at
medium severity for a first offence, and the counter for
identifier:rate_limit_exceeded becomes 1); once the current time
exceeds the window's resetTime the next call returns true again with a
fresh window whose counter is reset to 1. -/
theorem C6_rate_limit_boundary (s : SecState) (identifier ip : String)
    (t0 : Nat) (ts : List Nat) (tbad texp : Nat)
    (hrl : mapGet s.rateLimits (identifier ++ ":" ++ ip) = none)
    (hsa : mapGet s.suspiciousActivities (identifier ++ ":" ++ "rate_limit_exceeded") = none)
    (hlen : ts.length = 99)
    (hts : ∀ t ∈ ts, t ≤ t0 + RATE_LIMIT_WINDOW)
    (hbad : tbad ≤ t0 + RATE_LIMIT_WINDOW)
    (hexp : t0 + RATE_LIMIT_WINDOW < texp) :
    (runRate identifier ip (t0 :: ts) s).1 = List.replicate 100 true
    ∧ (checkRateLimit tbad identifier ip (runRate identifier ip (t0 :: ts) s).2).1 = false
    ∧ ((checkRateLimit tbad identifier ip (runRate identifier ip (t0 :: ts) s).2).2.auditLog.map
        (fun a => (a.eventType, a.riskLevel)))
        = s.auditLog.map (fun a => (a.eventType, a.riskLevel))
          ++ [("suspicious_activity", "medium")]
    ∧ mapGet (checkRateLimit tbad identifier ip
        (runRate identifier ip (t0 :: ts) s).2).2.suspiciousActivities
        (identifier ++ ":" ++ "rate_limit_exceeded") = some 1
    ∧ (checkRateLimit texp identifier ip
        (checkRateLimit tbad identifier ip (runRate identifier ip (t0 :: ts) s).2).2).1 = true
    ∧ mapGet (checkRateLimit texp identifier ip
        (checkRateLimit tbad identifier ip (runRate identifier ip (t0 :: ts) s).2).2).2.rateLimits
        (identifier ++ ":" ++ ip)
        = some (RateLimitEntry.mk 1 (texp + RATE_LIMIT_WINDOW)) := by
  have h1 : checkRateLimit t0 identifier ip s =
      (true, { s with rateLimits := (mapSet s.rateLimits (identifier ++ ":" ++ ip)
        (RateLimitEntry.mk 1 (t0 + RATE_LIMIT_WINDOW))) }) := by
    simp [checkRateLimit, hrl]
  have h2 := runRate_in_window identifier ip ts
      ({ s with rateLimits := (mapSet s.rateLimits (identifier ++ ":" ++ ip)
        (RateLimitEntry.mk 1 (t0 + RATE_LIMIT_WINDOW))) } : SecState)
      1 (t0 + RATE_LIMIT_WINDOW) (mapGet_mapSet_self _ _ _) hts
      (by simp [hlen, MAX_REQUESTS_PER_MINUTE])
  have hrun : runRate identifier ip (t0 :: ts) s =
      (List.replicate 100 true,
       { s with rateLimits := (mapSet s.rateLimits (identifier ++ ":" ++ ip)
         (RateLimitEntry.mk 100 (t0 + RATE_LIMIT_WINDOW))) }) := by
    rw [runRate]
    simp only [h1]
    simp only [h2]
    simp [mapSet_mapSet, hlen, List.replicate_succ]
  have hb : ¬ (tbad > t0 + RATE_LIMIT_WINDOW) := by omega
  have hbad2 : checkRateLimit tbad identifier ip
      ({ s with rateLimits := (mapSet s.rateLimits (identifier ++ ":" ++ ip)
        (RateLimitEntry.mk 100 (t0 + RATE_LIMIT_WINDOW))) } : SecState) =
      (false,
       { s with
          rateLimits := (mapSet s.rateLimits (identifier ++ ":" ++ ip)
            (RateLimitEntry.mk 100 (t0 + RATE_LIMIT_WINDOW)))
          suspiciousActivities := (mapSet s.suspiciousActivities
            (identifier ++ ":" ++ "rate_limit_exceeded") 1)
          auditLog := (s.auditLog ++ [AuditRecord.mk 0 "suspicious_activity"
            ("rate_limit_exceeded" ++ ": " ++ ("Rate limit exceeded: " ++ toString 100
              ++ " requests") ++ " (occurrence: " ++ toString 1 ++ ")") "medium"]) }) := by
    simp [checkRateLimit, recordSuspiciousActivity, jsIdKeyStr, emitAudit,
      mapGet_mapSet_self, hb, hsa, SUSPICIOUS_THRESHOLD, MAX_REQUESTS_PER_MINUTE]
  refine ⟨?_, ?_, ?_, ?_, ?_, ?_⟩
  · rw [hrun]
  · rw [hrun]
    simp only [hbad2]
  · rw [hrun]
    simp only [hbad2]
    simp
  · rw [hrun]
    simp only [hbad2]
    simp [mapGet_mapSet_self]
  · rw [hrun]
    simp only [hbad2]
    simp [checkRateLimit, mapGet_mapSet_self, hexp]
  · rw [hrun]
    simp only [hbad2]
    simp [checkRateLimit, mapGet_mapSet_self, hexp, mapSet_mapSet]

/-- Witness for C6: the spec scenario with identifier 'a', ip '1.2.3.4',
all in-window calls at time 0 and an after-expiry call at 60001 ms. -/
theorem C6_rate_limit_witness :
    mapGet initialSecState.rateLimits ("a" ++ ":" ++ "1.2.3.4") = none
    ∧ (List.replicate 99 0).length = 99
    ∧ (runRate "a" "1.2.3.4" (0 :: List.replicate 99 0) initialSecState).1
        = List.replicate 100 true
    ∧ (checkRateLimit 0 "a" "1.2.3.4"
        (runRate "a" "1.2.3.4" (0 :: List.replicate 99 0) initialSecState).2).1 = false
    ∧ (checkRateLimit 60001 "a" "1.2.3.4"
        (checkRateLimit 0 "a" "1.2.3.4"
          (runRate "a" "1.2.3.4" (0 :: List.replicate 99 0) initialSecState).2).2).1 = true := by
  have h := C6_rate_limit_boundary initialSecState "a" "1.2.3.4" 0 (List.replicate 99 0) 0 60001
      rfl rfl (by simp)
      (by intro t ht; have := List.eq_of_mem_replicate ht; omega)
      (by omega) (by decide)
  exact ⟨rfl, by simp, h.1, h.2.1, h.2.2.2.2.1⟩

/-- C7: confirmed.  detectIntrusion inspects exactly the three signals
(rapid-activity counter above 20; unusual_pattern metadata flag on a
permission activity; suspicious_size metadata flag on a file_access
activity).  With zero matched signals it returns threat:false,
level:'none', action:'continue' and emits no audit record; otherwise
the count of matched signals fixes the level (1 medium, 2 high,
3 critical) and the level fixes the action (monitor,
require_verification, block_user), it returns threat:true, and exactly
one intrusion_detected audit record at that level is emitted; no other
service state is touched. -/
theorem C7_intrusion_scoring (s : SecState) (userId : Nat) (activity : String)
    (md : IntrusionMetadata) :
    let cnt := (if (mapGet s.suspiciousActivities (toString userId ++ ":rapid_activity")).getD 0 > 20
                then 1 else 0)
             + (if strIncludes activity "permission" && md.unusual_pattern then 1 else 0)
             + (if strIncludes activity "file_access" && md.suspicious_size then 1 else 0)
    (detectIntrusion userId activity md s).1 =
      IntrusionResult.mk (decide (cnt ≠ 0))
        (if cnt = 0 then "none" else if cnt = 1 then "medium" else if cnt = 2 then "high"
         else "critical")
        (if cnt = 0 then "continue" else if cnt = 1 then "monitor"
         else if cnt = 2 then "require_verification" else "block_user")
    ∧ (detectIntrusion userId activity md s).2.auditLog.map (fun a => (a.eventType, a.riskLevel))
        = s.auditLog.map (fun a => (a.eventType, a.riskLevel))
          ++ (if cnt = 0 then [] else [("intrusion_detected",
               if cnt = 1 then "medium" else if cnt = 2 then "high" else "critical")])
    ∧ (detectIntrusion userId activity md s).2.blockedIPs = s.blockedIPs
    ∧ (detectIntrusion userId activity md s).2.suspiciousActivities = s.suspiciousActivities
    ∧ (detectIntrusion userId activity md s).2.rateLimits = s.rateLimits
    ∧ (detectIntrusion userId activity md s).2.failedAttempts = s.failedAttempts := by
  by_cases h1 : (mapGet s.suspiciousActivities (toString userId ++ ":rapid_activity")).getD 0 > 20 <;>
  cases h2 : strIncludes activity "permission" && md.unusual_pattern <;>
  cases h3 : strIncludes activity "file_access" && md.suspicious_size <;>
    simp [detectIntrusion, emitAudit, h1, h2, h3]

/-- C8: confirmed.  With the required key material absent (ENCRYPTION_KEY
for encryptData, MASTER_ENCRYPTION_KEY for the private-key helpers),
each operation fails with the fatal configuration error for every
input; and each returns a successful result exactly when the consulted
key material is truthy, so none of them ever falls back to a default
key or returns a result computed without the configured key. -/
theorem C8_required_key_material (data privateKey ciphertext : String) :
    encryptData data none none
      = Except.error "ENCRYPTION_KEY environment variable is required for secure operations"
    ∧ encryptPrivateKey privateKey none
      = Except.error "MASTER_ENCRYPTION_KEY environment variable is required for secure operations"
    ∧ decryptPrivateKey ciphertext none
      = Except.error "MASTER_ENCRYPTION_KEY environment variable is required for secure operations"
    ∧ (∀ envKey : Option String, (encryptData data none envKey).isOk = !jsFalsy envKey)
    ∧ (∀ masterKey : Option String,
        (encryptPrivateKey privateKey masterKey).isOk = !jsFalsy masterKey)
    ∧ (∀ masterKey : Option String,
        (decryptPrivateKey ciphertext masterKey).isOk = !jsFalsy masterKey) := by
  refine ⟨rfl, rfl, rfl, ?_, ?_, ?_⟩ <;>
    intro k <;> cases k <;>
    simp [encryptData, encryptPrivateKey, decryptPrivateKey, jsOrString, jsFalsy,
      Except.isOk, Except.toBool]
  all_goals
    rename_i v
    by_cases hv : v.isEmpty <;> simp [hv, Except.toBool]

/-- C9: refuted on the code as written.  The failedAttempts map stores
attempt COUNTERS, not timestamps, yet the cleanup loop destructures its
entries as [key, timestamp] and deletes every entry whose stored value
is below now - 1h.  Concretely: one failed attempt for bob from
1.2.3.4 recorded at t = 7200000 ms (so the entry is 0 seconds old) is
deleted by a cleanup run at that same instant, because its counter 1 is
below 7200000 - 3600000 — contradicting the claim that only entries
older than one hour are removed.  (For any realistic clock value every
failed-attempt entry is deleted.) -/
theorem C9_cleanup_deletes_fresh_attempt_entries :
    mapGet (recordFailedAttempt "bob" "1.2.3.4" initialSecState).2.failedAttempts
      "bob:1.2.3.4" = some 1
    ∧ mapGet (cleanupSecurityData 7200000
        (recordFailedAttempt "bob" "1.2.3.4" initialSecState).2).failedAttempts
      "bob:1.2.3.4" = none :=
  ⟨rfl, rfl⟩

/-- C10: confirmed.  Reaching the threshold does not reset the
(identifier, ip) counter: whenever the stored counter is already at
least 4, the next recordFailedAttempt returns true, stores counter + 1
(recordFailedAttempt always increments, never decreases — last
conjunct), invokes blockIP again (blocklist updated, isIPBlocked true)
and emits another high-risk ip_blocked audit record. -/
theorem C10_repeated_post_threshold_blocking (s : SecState) (identifier ip : String) (c : Nat)
    (hc : mapGet s.failedAttempts (identifier ++ ":" ++ ip) = some c) (h4 : 4 ≤ c) :
    (recordFailedAttempt identifier ip s).1 = true
    ∧ mapGet (recordFailedAttempt identifier ip s).2.failedAttempts
        (identifier ++ ":" ++ ip) = some (c + 1)
    ∧ (recordFailedAttempt identifier ip s).2.blockedIPs = setAdd s.blockedIPs ip
    ∧ isIPBlocked ip (recordFailedAttempt identifier ip s).2 = true
    ∧ (recordFailedAttempt identifier ip s).2.auditLog.map (fun a => (a.eventType, a.riskLevel))
        = s.auditLog.map (fun a => (a.eventType, a.riskLevel)) ++ [("ip_blocked", "high")]
    ∧ ∀ s2 : SecState,
        mapGet (recordFailedAttempt identifier ip s2).2.failedAttempts (identifier ++ ":" ++ ip)
          = some ((mapGet s2.failedAttempts (identifier ++ ":" ++ ip)).getD 0 + 1) := by
  have h5 : MAX_FAILED_ATTEMPTS ≤ c + 1 := by
    simp [MAX_FAILED_ATTEMPTS]
    omega
  refine ⟨?_, ?_, ?_, ?_, ?_, ?_⟩
  · simp [recordFailedAttempt, hc, h5]
  · simp [recordFailedAttempt, hc, h5, blockIP, emitAudit, mapGet_mapSet_self]
  · simp [recordFailedAttempt, hc, h5, blockIP, emitAudit]
  · simp [recordFailedAttempt, hc, h5, blockIP, emitAudit, isIPBlocked, mem_setAdd_self]
  · simp [recordFailedAttempt, hc, h5, blockIP, emitAudit]
  · intro s2
    by_cases h : (mapGet s2.failedAttempts (identifier ++ ":" ++ ip)).getD 0 + 1 ≥ MAX_FAILED_ATTEMPTS
    · simp [recordFailedAttempt, h, blockIP, emitAudit, mapGet_mapSet_self]
    · simp [recordFailedAttempt, h, blockIP, emitAudit, mapGet_mapSet_self]

/-- Witness for C10: a sixth failed attempt for eve from 9.9.9.9 whose
stored counter is already 5 blocks again. -/
theorem C10_repeated_blocking_witness :
    mapGet ({ initialSecState with
        failedAttempts := [("eve" ++ ":" ++ "9.9.9.9", 5)] } : SecState).failedAttempts
      ("eve" ++ ":" ++ "9.9.9.9") = some 5
    ∧ 4 ≤ 5
    ∧ (recordFailedAttempt "eve" "9.9.9.9" ({ initialSecState with
        failedAttempts := [("eve" ++ ":" ++ "9.9.9.9", 5)] } : SecState)).1 = true := by
  have h := C10_repeated_post_threshold_blocking
      ({ initialSecState with failedAttempts := [("eve" ++ ":" ++ "9.9.9.9", 5)] } : SecState)
      "eve" "9.9.9.9" 5 rfl (by decide)
  exact ⟨rfl, by decide, h.1⟩
